import Mathlib

/-!
Shallow embedding of `chemspipy/api.py` (chemlynx/ChemSpiPy): the transport
request operation of `BaseChemSpider`, the asynchronous search operations of
`SearchApi`, the formula/mass filter searches of `MassSpecApi`, and the
facade search of `CustomApi`, together with the typed error taxonomy of
`chemspipy/errors.py` as it is raised by `api.py`.

Python-level failures (NameError, UnboundLocalError, TypeError, KeyError,
AttributeError) are modelled as explicit error values distinct from the
library's typed ChemSpiPy exceptions.  Stateful code (the shared
`requests.session()` headers) is modelled by explicit state passing; every
HTTP round-trip actually issued is recorded in a trace of `HttpCall`s.
-/

set_option autoImplicit false
set_option linter.unusedVariables false

namespace ChemSpiPy

/-- Decoded JSON value, the result of `json.loads` on a response body.
Numbers are modelled as rationals (Python ints and floats). -/
inductive Json where
  | null
  | bool (b : Bool)
  | num (q : Rat)
  | str (s : String)
  | arr (elems : List Json)
  | obj (fields : List (String × Json))

/-- The part of a `requests` response that `BaseChemSpider.request` consumes:
`response.status_code` and `response.text`. -/
structure HttpResponse where
  status_code : Nat
  text : String

/-- The typed exception taxonomy of `chemspipy/errors.py` as raised from
`api.py`: `ChemSpiPyError` and its subclasses. -/
inductive ChemSpiPyException where
  | chemSpiPyError (msg : String)
  | authError (msg : String)
  | serverError (msg : String)
  | parseError (msg : String)
  | notFoundError (msg : String)
deriving DecidableEq

/-- Outcome of running a piece of the Python code: either a value, a typed
ChemSpiPy exception, or a Python interpreter-level error. -/
inductive PyError where
  | chemspipy (e : ChemSpiPyException)
  | nameError (name : String)
  | unboundLocal (name : String)
  | typeError (msg : String)
  | keyError (key : String)
  | attributeError (attr : String)
deriving DecidableEq

/-- Session headers: a string-keyed dictionary, modelled as an association
list whose `update` replaces in place or appends. -/
def updateHeader : List (String × String) → String → String → List (String × String)
  | [], k, v => [(k, v)]
  | (k1, v1) :: rest, k, v =>
    if k1 = k then (k, v) :: rest else (k1, v1) :: updateHeader rest k v

/-- Dictionary lookup on the header association list. -/
def lookupHeader : List (String × String) → String → Option String
  | [], _ => none
  | (k1, v1) :: rest, k => if k1 = k then some v1 else lookupHeader rest k

/-- The shared `requests.session()` object: its mutable header dictionary. -/
structure HttpSession where
  headers : List (String × String)

/-- The state of a `BaseChemSpider` instance after `__init__`: the composed
base URL `api_url`, the stored `apikey`, and the shared HTTP session. -/
structure Spider where
  api_url : String
  apikey : String
  http : HttpSession

/-- `BaseChemSpider.__init__`: composes `api_url` from the base URL, path and
version, stores the apikey, and sets the User-Agent and Content-Type headers
on the session (whose library-supplied initial headers are `h0`; the
User-Agent default is a version string computed from the environment, passed
here as `user_agent`). -/
def initSpider (h0 : List (String × String)) (apikey user_agent : String)
    (api_base_url api_path version : String) : Spider :=
  { api_url := api_base_url ++ "/" ++ api_path ++ "/" ++ version
    apikey := apikey
    http := ⟨updateHeader (updateHeader h0 "User-Agent" user_agent)
              "Content-Type" "application/json"⟩ }

/-- The network and JSON decoding environment: `post` and `get` perform the
HTTP round-trip (an `Except.error` is a raised `requests.RequestException`),
and `decode` is `json.loads` (an `Except.error` carries the
`json.JSONDecodeError` message). -/
structure Transport where
  post : String → Json → List (String × String) → Except String HttpResponse
  get : String → List (String × String) → Except String HttpResponse
  decode : String → Except String Json

/-- One HTTP round-trip actually issued against the remote service. -/
structure HttpCall where
  verb : String
  url : String
  body : Option Json

/-- The keyword arguments of `BaseChemSpider.request` that its body consults:
an optional `fields` list (GET with a record id) and an optional `data`
payload (POST body). -/
structure RequestParams where
  fields : Option (List String)
  data : Option Json

def noParams : RequestParams := ⟨none, none⟩

def dataParams (d : Json) : RequestParams := ⟨none, some d⟩

/-- `'%s/%s/%s' % (a, b, c)`. -/
def fmt3 (a b c : String) : String := a ++ "/" ++ b ++ "/" ++ c

/-- `'%s/%s/%s/%s' % (a, b, c, d)`. -/
def fmt4 (a b c d : String) : String := a ++ "/" ++ b ++ "/" ++ c ++ "/" ++ d

def badRequestMsg : String :=
  "Bad Request. Check the request you sent and try again."

def unauthorizedMsg : String :=
  "Unauthorized. Check you have supplied the correct API key and that you have sent it as an HTTP Header called \x27apikey\x27."

def notFoundMsg : String :=
  "Not Found. The requested endpoint URL is not recognized. Change your request and try again."

def methodNotAllowedMsg : String :=
  "Method Not Allowed. The verb is incorrect for the endpoint. Change your request and try again."

def payloadTooLargeMsg : String :=
  "Payload Too Large. The request you sent was too big to handle. Change your request and try again."

def tooManyRequestsMsg : String :=
  "Too Many Requests. Send fewer requests, or use rate-limiting to slow them down, then try again."

def internalServerErrorMsg : String :=
  "Internal Server Error. Wait and try again."

def serviceUnavailableMsg : String :=
  "Service Unavailable. Wait and try again."

/-- Lines 195-228 of `api.py`: the status-code dispatch on the response
followed by `json.loads(response.text)`.  Only a 200 reaches the decode; the
enumerated codes 400, 401, 404, 405, 413, 429, 500 and 503 each raise
`ChemSpiPyAuthError` with their fixed message (500 and 503 included, as the
source is written), and every other code raises
`ChemSpiPyServerError(response.text)`. -/
def handleResponse (decode : String → Except String Json) (resp : HttpResponse) :
    Except PyError Json :=
  if resp.status_code = 200 then
    match decode resp.text with
    | Except.ok j => Except.ok j
    | Except.error e =>
        Except.error (PyError.chemspipy
          (ChemSpiPyException.parseError ("Unable to parse json response: " ++ e)))
  else if resp.status_code = 400 then
    Except.error (PyError.chemspipy (ChemSpiPyException.authError badRequestMsg))
  else if resp.status_code = 401 then
    Except.error (PyError.chemspipy (ChemSpiPyException.authError unauthorizedMsg))
  else if resp.status_code = 404 then
    Except.error (PyError.chemspipy (ChemSpiPyException.authError notFoundMsg))
  else if resp.status_code = 405 then
    Except.error (PyError.chemspipy (ChemSpiPyException.authError methodNotAllowedMsg))
  else if resp.status_code = 413 then
    Except.error (PyError.chemspipy (ChemSpiPyException.authError payloadTooLargeMsg))
  else if resp.status_code = 429 then
    Except.error (PyError.chemspipy (ChemSpiPyException.authError tooManyRequestsMsg))
  else if resp.status_code = 500 then
    Except.error (PyError.chemspipy (ChemSpiPyException.authError internalServerErrorMsg))
  else if resp.status_code = 503 then
    Except.error (PyError.chemspipy (ChemSpiPyException.authError serviceUnavailableMsg))
  else
    Except.error (PyError.chemspipy (ChemSpiPyException.serverError resp.text))

/-- The in-place `self.http.headers.update({'apikey': self.apikey})` performed
by both the POST and the GET branch of `request`. -/
def withApikeyHeader (s : Spider) : Spider :=
  { s with http := ⟨updateHeader s.http.headers "apikey" s.apikey⟩ }

/-- `BaseChemSpider.request` (lines 153-228 of `api.py`).  URL construction
honours Python truthiness of `record_id` (an empty string falls to the plain
URL) and appends `?fields=` when a `fields` list is given with a record id.
The line `params['apikey'] = self.apikey` only mutates the local kwargs dict
and affects neither URL nor body, so it is not modelled.  The POST branch
rebuilds the URL without the record id, updates the session headers with the
apikey, evaluates `params['data']` (KeyError when absent) and posts; the GET
branch updates the headers and gets; any other verb skips both branches and
then `response.status_code` raises UnboundLocalError on `response`, with no
HTTP call made.  A raised `requests.RequestException` becomes
`ChemSpiPyError`; otherwise the response goes through `handleResponse`.
The returned triple is (spider state, HTTP calls issued, outcome). -/
def request (T : Transport) (s : Spider) (api endpoint http_verb : String)
    (record_id : Option String) (params : RequestParams) :
    Spider × List HttpCall × Except PyError Json :=
  let url :=
    match record_id with
    | some r =>
      if r.isEmpty then fmt3 s.api_url api endpoint
      else
        match params.fields with
        | some fs => fmt4 s.api_url api r endpoint ++ "?fields=" ++ String.intercalate "," fs
        | none => fmt4 s.api_url api r endpoint
    | none => fmt3 s.api_url api endpoint
  if http_verb = "POST" then
    let posturl := fmt3 s.api_url api endpoint
    let s1 := withApikeyHeader s
    match params.data with
    | none => (s1, [], Except.error (PyError.keyError "data"))
    | some d =>
      match T.post posturl d s1.http.headers with
      | Except.error e =>
          (s1, [⟨"POST", posturl, some d⟩],
           Except.error (PyError.chemspipy (ChemSpiPyException.chemSpiPyError e)))
      | Except.ok resp =>
          (s1, [⟨"POST", posturl, some d⟩], handleResponse T.decode resp)
  else if http_verb = "GET" then
    let s1 := withApikeyHeader s
    match T.get url s1.http.headers with
    | Except.error e =>
        (s1, [⟨"GET", url, none⟩],
         Except.error (PyError.chemspipy (ChemSpiPyException.chemSpiPyError e)))
    | Except.ok resp =>
        (s1, [⟨"GET", url, none⟩], handleResponse T.decode resp)
  else
    (s, [], Except.error (PyError.unboundLocal "response"))

/-- Modelled from the spec: `chemspipy/objects.py` is not under `src/`; a
Record handle is characterised by the identifier text it was constructed
from, `Compound(self, el.text)`. -/
structure Compound where
  csid : String
deriving DecidableEq

/-- Python iteration over a decoded JSON value: a list yields its elements, a
dict yields its keys (as strings), a string yields its one-character strings;
None, booleans and numbers are not iterable (TypeError). -/
def iterElements : Json → Except PyError (List Json)
  | Json.arr xs => Except.ok xs
  | Json.obj kvs => Except.ok (kvs.map (fun kv => Json.str kv.1))
  | Json.str st => Except.ok (st.data.map (fun c => Json.str (String.mk [c])))
  | _ => Except.error (PyError.typeError "object is not iterable")

/-- `el.text` on an element of a decoded JSON response: no value produced by
`json.loads` (dict, list, str, int, float, bool, None) has a `text`
attribute, so the access raises AttributeError. -/
def elementText (_ : Json) : Except PyError String :=
  Except.error (PyError.attributeError "text")

/-- The accumulation of `[Compound(self, el.text) for el in response]`,
left to right, stopping at the first raised error. -/
def mapCompound : List Json → Except PyError (List Compound)
  | [] => Except.ok []
  | el :: rest =>
    match elementText el with
    | Except.error e => Except.error e
    | Except.ok t =>
      match mapCompound rest with
      | Except.error e => Except.error e
      | Except.ok cs => Except.ok (⟨t⟩ :: cs)

/-- `[Compound(self, el.text) for el in response]` applied to the decoded
response. -/
def compoundsOf (resp : Json) : Except PyError (List Compound) :=
  match iterElements resp with
  | Except.error e => Except.error e
  | Except.ok els => mapCompound els

/-- Python truthiness of the `datasources` argument: `if datasources:` is
taken for a non-None, non-empty list. -/
def dsTruthy : Option (List String) → Bool
  | none => false
  | some l => !l.isEmpty

/-- `MassSpecApi.simple_search_by_formula` (lines 301-318 of `api.py`):
builds `payload = {"formula": formula}`; then `if datasources:` executes
`data['dataSources'] = datasources`, but no name `data` is ever assigned in
the function, so Python raises NameError on `data` before any request; when
`datasources` is falsy it posts the formula-only payload to `filter/formula`
and wraps the response in the Compound comprehension. -/
def simple_search_by_formula (T : Transport) (s : Spider) (formula : String)
    (datasources : Option (List String)) :
    Spider × List HttpCall × Except PyError (List Compound) :=
  let payload := Json.obj [("formula", Json.str formula)]
  if dsTruthy datasources then
    (s, [], Except.error (PyError.nameError "data"))
  else
    let r := request T s "filter" "formula" "POST" none (dataParams payload)
    (r.1, r.2.1, r.2.2.bind compoundsOf)

/-- `MassSpecApi.simple_search_by_mass` (lines 320-340 of `api.py`): builds
`payload = {"mass": mass, "range": mass_range}`; the `if datasources:` branch
raises NameError on the unassigned name `data` exactly as in
`simple_search_by_formula`; otherwise posts the payload to `filter/mass`. -/
def simple_search_by_mass (T : Transport) (s : Spider) (mass mass_range : Rat)
    (datasources : Option (List String)) :
    Spider × List HttpCall × Except PyError (List Compound) :=
  let payload := Json.obj [("mass", Json.num mass), ("range", Json.num mass_range)]
  if dsTruthy datasources then
    (s, [], Except.error (PyError.nameError "data"))
  else
    let r := request T s "filter" "mass" "POST" none (dataParams payload)
    (r.1, r.2.1, r.2.2.bind compoundsOf)

/-- `SearchApi.async_simple_search` (lines 375-392): posts
`{"name": query}` to `filter/name` and returns the decoded response. -/
def async_simple_search (T : Transport) (s : Spider) (query : String) :
    Spider × List HttpCall × Except PyError Json :=
  request T s "filter" "name" "POST" none
    (dataParams (Json.obj [("name", Json.str query)]))

/-- `SearchApi.async_simple_search_ordered` (lines 394-418): posts
`{"name": query, 'orderBy': order, 'orderDirection': direction}` to
`filter/name` and returns the decoded response. -/
def async_simple_search_ordered (T : Transport) (s : Spider)
    (query order direction : String) :
    Spider × List HttpCall × Except PyError Json :=
  request T s "filter" "name" "POST" none
    (dataParams (Json.obj [("name", Json.str query), ("orderBy", Json.str order),
      ("orderDirection", Json.str direction)]))

/-- `SearchApi.get_async_search_status` (lines 420-431): one GET of
`filter/{rid}/status`, returning the decoded response unchanged. -/
def get_async_search_status (T : Transport) (s : Spider) (rid : String) :
    Spider × List HttpCall × Except PyError Json :=
  request T s "filter" "status" "GET" (some rid) noParams

/-- `SearchApi.get_async_search_status_and_count` (lines 433-442): the same
single GET of `filter/{rid}/status`, response returned unchanged. -/
def get_async_search_status_and_count (T : Transport) (s : Spider) (rid : String) :
    Spider × List HttpCall × Except PyError Json :=
  request T s "filter" "status" "GET" (some rid) noParams

def requestMissingVerbMsg : String :=
  "request() missing 1 required positional argument: http_verb"

/-- `SearchApi.get_async_search_result` (lines 444-452): the body is
`self.request('Search', 'GetAsyncSearchResult', rid=rid)`.  `request`
declares `http_verb` as a required positional parameter and the call passes
only two positional arguments ('Search', 'GetAsyncSearchResult') and a
keyword `rid` that matches no parameter name, so Python raises TypeError at
the call site, before the body of `request` runs: no session mutation and no
HTTP call.  The Compound comprehension on the following line is never
reached. -/
def get_async_search_result (T : Transport) (s : Spider) (rid : String) :
    Spider × List HttpCall × Except PyError (List Compound) :=
  (s, [], Except.error (PyError.typeError requestMissingVerbMsg))

/-- `SearchApi.get_async_search_result_part` (lines 454-464): the body is
`self.request('Search', 'GetAsyncSearchResultPart', rid=rid, start=start,
count=count)`; as in `get_async_search_result` the required positional
parameter `http_verb` of `request` is not supplied (rid, start, count are
keywords matching no parameter), so Python raises TypeError at the call
site: no HTTP call is made and the slicing semantics of start/count is never
exercised. -/
def get_async_search_result_part (T : Transport) (s : Spider) (rid : String)
    (start count : Int) :
    Spider × List HttpCall × Except PyError (List Compound) :=
  (s, [], Except.error (PyError.typeError requestMissingVerbMsg))

/-- Which submission variant a Search Session was constructed with, and the
argument tuple it will submit. -/
inductive Submission where
  | plain (query : String)
  | ordered (query order direction : String)
deriving DecidableEq

/-- The POST body that running the stored submission variant sends (see
`async_simple_search` and `async_simple_search_ordered`). -/
def submissionPayload : Submission → Json
  | Submission.plain q => Json.obj [("name", Json.str q)]
  | Submission.ordered q o d =>
      Json.obj [("name", Json.str q), ("orderBy", Json.str o),
        ("orderDirection", Json.str d)]

/-- Modelled from the spec: `chemspipy/search.py` (`Results`) is not under
`src/`; the Search Session stores the submission variant with its argument
tuple and the `raise_errors` flag supplied at construction, which governs the
dual-mode error contract. -/
structure Results where
  submission : Submission
  raise_errors : Bool

/-- Modelled from the spec: the Search Session's dual-mode error contract
(`chemspipy/search.py`, not under `src/`): with `raise_errors = true` a
transport failure raises at the call site; with `raise_errors = false` it is
stored on the session's `exception` attribute and a non-raising sentinel is
returned. -/
def sessionFailureOutcome (raise_errors : Bool) (e : ChemSpiPyException) :
    Except ChemSpiPyException (Option ChemSpiPyException) :=
  if raise_errors then Except.error e else Except.ok (some e)

/-- The sort-direction constant `ASCENDING` of `api.py`. -/
def ASCENDING : String := "ascending"

namespace CustomApi

/-- `CustomApi.search` (lines 596-612 of `api.py`):
`if order and direction:` constructs the session with
`async_simple_search_ordered` and `(query, order, direction)`, else with
`async_simple_search` and `(query,)`; `raise_errors` is passed through.
Python truthiness: a None or empty-string order or direction is falsy. -/
def search (query : String) (order direction : Option String)
    (raise_errors : Bool) : Results :=
  match order, direction with
  | some o, some d =>
    if !o.isEmpty && !d.isEmpty then ⟨Submission.ordered query o d, raise_errors⟩
    else ⟨Submission.plain query, raise_errors⟩
  | _, _ => ⟨Submission.plain query, raise_errors⟩

/-- `CustomApi.search` invoked with its declared defaults
(`order=None, direction=ASCENDING, raise_errors=False`). -/
def search_with_defaults (query : String) : Results :=
  search query none (some ASCENDING) false

end CustomApi

/-- The status vocabulary documented for `get_async_search_status`
(docstring, lines 426-427 of `api.py`). -/
def searchStatuses : List String :=
  ["Unknown", "Created", "Scheduled", "Processing", "Suspended",
   "PartialResultReady", "ResultReady", "Failed", "TooManyRecords"]

/-! ### Concrete fixtures for witnesses and counterexamples -/

/-- A remote service that answers every call with the given status code and
body text, whose body never decodes as JSON. -/
def constTransport (code : Nat) (txt : String) : Transport :=
  { post := fun _ _ _ => Except.ok ⟨code, txt⟩
    get := fun _ _ => Except.ok ⟨code, txt⟩
    decode := fun _ => Except.error "Expecting value: line 1 column 1 (char 0)" }

/-- A remote service that answers every call with 200 and the given text,
which decodes to the JSON string of the body. -/
def echoTransport (txt : String) : Transport :=
  { post := fun _ _ _ => Except.ok ⟨200, txt⟩
    get := fun _ _ => Except.ok ⟨200, txt⟩
    decode := fun t => Except.ok (Json.str t) }

/-- A freshly constructed client, as `ChemSpider('secret-key')` would build
it (empty library-default headers for definiteness). -/
def demoSpider : Spider :=
  initSpider [] "secret-key" "chemspipy-agent" "https://api.rsc.org" "compounds" "v1"

/-- The demo client after its session headers already carry the apikey, as
they do after any first request. -/
def primedSpider : Spider := withApikeyHeader demoSpider

/-! ### Helper lemmas on the embedded operations -/

theorem updateHeader_lookup_self (l : List (String × String)) (k v : String)
    (h : lookupHeader l k = some v) : updateHeader l k v = l := by
  induction l with
  | nil => simp [lookupHeader] at h
  | cons p rest ih =>
    rcases p with ⟨k1, v1⟩
    by_cases hk : k1 = k
    · subst hk
      simp [lookupHeader] at h
      simp [updateHeader, h]
    · simp only [lookupHeader, if_neg hk] at h
      simp [updateHeader, hk, ih h]

theorem withApikeyHeader_eq_self (s : Spider)
    (h : lookupHeader s.http.headers "apikey" = some s.apikey) :
    withApikeyHeader s = s := by
  show ({ s with http := ⟨updateHeader s.http.headers "apikey" s.apikey⟩ } : Spider) = s
  rw [updateHeader_lookup_self _ _ _ h]

theorem request_get_rid_ok (T : Transport) (s : Spider) (api endpoint rid : String)
    (resp : HttpResponse) (hrid : rid.isEmpty = false)
    (hget : T.get (fmt4 s.api_url api rid endpoint) (withApikeyHeader s).http.headers
              = Except.ok resp) :
    request T s api endpoint "GET" (some rid) noParams =
      (withApikeyHeader s, [⟨"GET", fmt4 s.api_url api rid endpoint, none⟩],
        handleResponse T.decode resp) := by
  simp [request, noParams, hrid, hget]

theorem request_get_plain_ok (T : Transport) (s : Spider) (api endpoint : String)
    (resp : HttpResponse)
    (hget : T.get (fmt3 s.api_url api endpoint) (withApikeyHeader s).http.headers
              = Except.ok resp) :
    request T s api endpoint "GET" none noParams =
      (withApikeyHeader s, [⟨"GET", fmt3 s.api_url api endpoint, none⟩],
        handleResponse T.decode resp) := by
  simp [request, noParams, hget]

theorem request_post_trace (T : Transport) (s : Spider) (api endpoint : String) (d : Json) :
    (request T s api endpoint "POST" none (dataParams d)).1 = withApikeyHeader s
    ∧ (request T s api endpoint "POST" none (dataParams d)).2.1 =
        [⟨"POST", fmt3 s.api_url api endpoint, some d⟩] := by
  cases h : T.post (fmt3 s.api_url api endpoint) d (withApikeyHeader s).http.headers <;>
    simp [request, dataParams, h]

/-! ### Claim theorems -/

/-- Claim C1 (code bug): requesting a result part with `start=2, count=2`
does not return the Record handles for positions 2 and 3 — the source calls
`request` without its required positional `http_verb` argument, so the
operation raises TypeError at a ready session before any remote call (the
same holds for the full-result retrieval, so `count=-1` never returns
anything either). -/
theorem c1_result_part_raises_type_error :
    get_async_search_result_part (echoTransport "ok") demoSpider "abc-123" 2 2 =
      (demoSpider, [], Except.error (PyError.typeError requestMissingVerbMsg))
    ∧ get_async_search_result (echoTransport "ok") demoSpider "abc-123" =
      (demoSpider, [], Except.error (PyError.typeError requestMissingVerbMsg)) :=
  ⟨rfl, rfl⟩

/-- Claim C2 (code bug): an HTTP 500 and an HTTP 503 response make `request`
raise `ChemSpiPyAuthError` — carrying the server-error message texts — and
not `ChemSpiPyServerError` as the claim and the spec's taxonomy state. -/
theorem c2_500_503_raise_auth_error_not_server_error :
    (request (constTransport 500 "ise") demoSpider "filter" "name" "POST" none
        (dataParams (Json.obj [("name", Json.str "benzene")]))).2.2
      = Except.error (PyError.chemspipy (ChemSpiPyException.authError internalServerErrorMsg))
    ∧ (request (constTransport 503 "su") demoSpider "filter" "name" "POST" none
        (dataParams (Json.obj [("name", Json.str "benzene")]))).2.2
      = Except.error (PyError.chemspipy (ChemSpiPyException.authError serviceUnavailableMsg)) :=
  ⟨rfl, rfl⟩

/-- Claim C3, counterexample: the Facade's search called with its declared
defaults constructs the Search Session with `raise_errors = false`, not
`true` as the claim states. -/
theorem c3_default_raise_errors_is_false :
    (CustomApi.search_with_defaults "benzene").raise_errors = false := rfl

/-- Claim C3, amended: the Facade's search constructs the Search Session
with `raise_errors=False` by default, so that absent an explicit
`raise_errors=True` a transport failure during submission or polling is
stored on the session's `exception` attribute (dual-mode contract) rather
than raising at the call site. -/
theorem c3_amended_default_stores_failures (query : String) (e : ChemSpiPyException) :
    (CustomApi.search_with_defaults query).raise_errors = false
    ∧ sessionFailureOutcome (CustomApi.search_with_defaults query).raise_errors e
        = Except.ok (some e) :=
  ⟨rfl, rfl⟩

/-- Claim C10 (confirmed): for any verb other than GET and POST, `request`
performs no HTTP call and fails with an UnboundLocalError on `response`,
leaving the client state untouched — in particular it does not raise any of
the typed ChemSpiPy exception kinds. -/
theorem c10_unknown_verb_unbound_response (T : Transport) (s : Spider)
    (api endpoint verb : String) (rid : Option String) (params : RequestParams)
    (hp : verb ≠ "POST") (hg : verb ≠ "GET") :
    request T s api endpoint verb rid params =
      (s, [], Except.error (PyError.unboundLocal "response"))
    ∧ ∀ ex : ChemSpiPyException,
        (request T s api endpoint verb rid params).2.2 ≠
          Except.error (PyError.chemspipy ex) := by
  have h : request T s api endpoint verb rid params =
      (s, [], Except.error (PyError.unboundLocal "response")) := by
    simp [request, hp, hg]
  refine ⟨h, fun ex => ?_⟩
  rw [h]
  simp

/-- Claim C10, witness at the concrete verb `PUT`. -/
theorem c10_unknown_verb_unbound_response_witness :
    request (echoTransport "ok") demoSpider "filter" "name" "PUT" none noParams =
      (demoSpider, [], Except.error (PyError.unboundLocal "response"))
    ∧ ∀ ex : ChemSpiPyException,
        (request (echoTransport "ok") demoSpider "filter" "name" "PUT" none noParams).2.2 ≠
          Except.error (PyError.chemspipy ex) :=
  c10_unknown_verb_unbound_response _ _ _ _ _ _ _ (by decide) (by decide)

/-- Claim C4 (confirmed): each call to `get_async_search_status` performs
exactly one remote round-trip (the single GET of `filter/{rid}/status`) and
returns the status value reported by the remote service, a member of the
enumerated vocabulary; `get_async_search_status_and_count` is the identical
single call. -/
theorem c4_status_single_roundtrip (T : Transport) (s : Spider) (rid st : String)
    (resp : HttpResponse) (hrid : rid.isEmpty = false)
    (hget : T.get (fmt4 s.api_url "filter" rid "status") (withApikeyHeader s).http.headers
              = Except.ok resp)
    (h200 : resp.status_code = 200)
    (hdec : T.decode resp.text = Except.ok (Json.str st))
    (hst : st ∈ searchStatuses) :
    (get_async_search_status T s rid).2.1.length = 1
    ∧ (get_async_search_status T s rid).2.2 = Except.ok (Json.str st)
    ∧ (get_async_search_status_and_count T s rid).2.2 = Except.ok (Json.str st)
    ∧ st ∈ searchStatuses := by
  have h := request_get_rid_ok T s "filter" "status" rid resp hrid hget
  have hresp : handleResponse T.decode resp = Except.ok (Json.str st) := by
    simp [handleResponse, h200, hdec]
  refine ⟨?_, ?_, ?_, hst⟩ <;>
    simp [get_async_search_status, get_async_search_status_and_count, h, hresp]

/-- Claim C4, witness: a concrete session whose remote reports
`ResultReady`. -/
theorem c4_status_single_roundtrip_witness :
    (get_async_search_status (echoTransport "ResultReady") demoSpider "abc-123").2.1.length = 1
    ∧ (get_async_search_status (echoTransport "ResultReady") demoSpider "abc-123").2.2
        = Except.ok (Json.str "ResultReady")
    ∧ (get_async_search_status_and_count (echoTransport "ResultReady") demoSpider "abc-123").2.2
        = Except.ok (Json.str "ResultReady")
    ∧ "ResultReady" ∈ searchStatuses :=
  c4_status_single_roundtrip (echoTransport "ResultReady") demoSpider "abc-123" "ResultReady"
    ⟨200, "ResultReady"⟩ rfl rfl rfl rfl (by decide)

/-- Claim C5, counterexample: the very first `request` on a freshly
constructed client does mutate the shared HTTP session's headers — it
inserts the `apikey` header, so the headers after the call differ from the
headers before it. -/
theorem c5_first_request_mutates_headers :
    (request (echoTransport "ok") demoSpider "filter" "status" "GET" (some "abc")
        noParams).1.http.headers
      ≠ demoSpider.http.headers := by decide

/-- Claim C5, amended: `request` never mutates the client's base URL or
stored credentials, and its only mutation of the shared session is the
idempotent insertion of the apikey header: whenever the headers already
carry `apikey` bound to the stored key (as they do after any first request),
every call leaves headers, credentials and base URL exactly as they were. -/
theorem c5_amended_request_preserves_config (T : Transport) (s : Spider)
    (api endpoint verb : String) (rid : Option String) (params : RequestParams)
    (h : lookupHeader s.http.headers "apikey" = some s.apikey) :
    (request T s api endpoint verb rid params).1.api_url = s.api_url
    ∧ (request T s api endpoint verb rid params).1.apikey = s.apikey
    ∧ (request T s api endpoint verb rid params).1.http.headers = s.http.headers := by
  have hw : withApikeyHeader s = s := withApikeyHeader_eq_self s h
  simp only [request]
  repeat' split
  all_goals simp [hw]

/-- Claim C5 amended, witness: the primed client (apikey header already
present) is left unchanged by a further request. -/
theorem c5_amended_request_preserves_config_witness :
    (request (echoTransport "ok") primedSpider "filter" "status" "GET" (some "abc")
        noParams).1.api_url = primedSpider.api_url
    ∧ (request (echoTransport "ok") primedSpider "filter" "status" "GET" (some "abc")
        noParams).1.apikey = primedSpider.apikey
    ∧ (request (echoTransport "ok") primedSpider "filter" "status" "GET" (some "abc")
        noParams).1.http.headers = primedSpider.http.headers :=
  c5_amended_request_preserves_config _ _ _ _ _ _ _ (by decide)

/-- Claim C6, counterexample: the 4xx status 403 does not raise the
auth-error kind — it falls through to the generic
`ChemSpiPyServerError(response.text)` branch. -/
theorem c6_403_raises_generic_server_error :
    (request (constTransport 403 "Forbidden") demoSpider "filter" "status" "GET"
        (some "abc") noParams).2.2
      = Except.error (PyError.chemspipy (ChemSpiPyException.serverError "Forbidden")) := rfl

/-- The fixed client-error message raised for each enumerated 4xx status. -/
def clientErrorMsg : Nat → String
  | 400 => badRequestMsg
  | 401 => unauthorizedMsg
  | 404 => notFoundMsg
  | 405 => methodNotAllowedMsg
  | 413 => payloadTooLargeMsg
  | 429 => tooManyRequestsMsg
  | _ => ""

/-- Claim C6, amended: `request` raises `ChemSpiPyAuthError` exactly for the
enumerated client-error codes 400, 401, 404, 405, 413 and 429; every other
4xx status (402, 403, 406-412, 414-428, 430-499) falls through to the
generic `ChemSpiPyServerError(response.text)`; in particular a 401 raises
`ChemSpiPyAuthError` with the message identifying it as an authorization
failure.  `resp1` is any response with an enumerated code, `resp2` any 4xx
response with a non-enumerated code. -/
theorem c6_amended_enumerated_4xx_auth_error (T1 T2 : Transport) (s : Spider)
    (api endpoint rid : String) (resp1 resp2 : HttpResponse)
    (hrid : rid.isEmpty = false)
    (hget1 : T1.get (fmt4 s.api_url api rid endpoint) (withApikeyHeader s).http.headers
              = Except.ok resp1)
    (hcode1 : resp1.status_code ∈ [400, 401, 404, 405, 413, 429])
    (hget2 : T2.get (fmt4 s.api_url api rid endpoint) (withApikeyHeader s).http.headers
              = Except.ok resp2)
    (hlo2 : 400 ≤ resp2.status_code) (hhi2 : resp2.status_code ≤ 499)
    (hcode2 : resp2.status_code ∉ [400, 401, 404, 405, 413, 429]) :
    (request T1 s api endpoint "GET" (some rid) noParams).2.2 =
      Except.error (PyError.chemspipy
        (ChemSpiPyException.authError (clientErrorMsg resp1.status_code)))
    ∧ (request T2 s api endpoint "GET" (some rid) noParams).2.2 =
      Except.error (PyError.chemspipy (ChemSpiPyException.serverError resp2.text))
    ∧ clientErrorMsg 401 = unauthorizedMsg := by
  have h1 := request_get_rid_ok T1 s api endpoint rid resp1 hrid hget1
  have h2 := request_get_rid_ok T2 s api endpoint rid resp2 hrid hget2
  refine ⟨?_, ?_, rfl⟩
  · simp only [h1]
    simp only [List.mem_cons, List.not_mem_nil, or_false] at hcode1
    rcases hcode1 with hc | hc | hc | hc | hc | hc <;>
      simp [handleResponse, clientErrorMsg, hc]
  · simp only [h2]
    simp only [List.mem_cons, List.not_mem_nil, or_false, not_or] at hcode2
    obtain ⟨h400, h401, h404, h405, h413, h429⟩ := hcode2
    have h200 : resp2.status_code ≠ 200 := by omega
    have h500 : resp2.status_code ≠ 500 := by omega
    have h503 : resp2.status_code ≠ 503 := by omega
    simp [handleResponse, h200, h400, h401, h404, h405, h413, h429, h500, h503]

/-- Claim C6 amended, witness: a 401 rejection raises the auth-error kind
with the unauthorized message, while a 403 rejection (a 4xx outside the
enumerated set) falls to the generic server error. -/
theorem c6_amended_enumerated_4xx_auth_error_witness :
    (request (constTransport 401 "nope") demoSpider "filter" "status" "GET"
        (some "abc") noParams).2.2 =
      Except.error (PyError.chemspipy
        (ChemSpiPyException.authError (clientErrorMsg (HttpResponse.mk 401 "nope").status_code)))
    ∧ (request (constTransport 403 "Forbidden-text") demoSpider "filter" "status" "GET"
        (some "abc") noParams).2.2 =
      Except.error (PyError.chemspipy (ChemSpiPyException.serverError "Forbidden-text"))
    ∧ clientErrorMsg 401 = unauthorizedMsg :=
  c6_amended_enumerated_4xx_auth_error (constTransport 401 "nope")
    (constTransport 403 "Forbidden-text") demoSpider "filter" "status" "abc"
    ⟨401, "nope"⟩ ⟨403, "Forbidden-text"⟩ rfl rfl (by decide) rfl (by decide)
    (by decide) (by decide)

/-- Claim C7 (confirmed): after a successful 200 status, a response body
that cannot be decoded as JSON makes `request` raise `ChemSpiPyParseError`
(and no other kind, and no value is returned). -/
theorem c7_parse_error_on_bad_json (T : Transport) (s : Spider)
    (api endpoint : String) (resp : HttpResponse) (e : String)
    (hget : T.get (fmt3 s.api_url api endpoint) (withApikeyHeader s).http.headers
              = Except.ok resp)
    (h200 : resp.status_code = 200)
    (hdec : T.decode resp.text = Except.error e) :
    (request T s api endpoint "GET" none noParams).2.2 =
      Except.error (PyError.chemspipy
        (ChemSpiPyException.parseError ("Unable to parse json response: " ++ e))) := by
  have h := request_get_plain_ok T s api endpoint resp hget
  simp [h, handleResponse, h200, hdec]

/-- Claim C7, witness: a 200 response whose body is not JSON. -/
theorem c7_parse_error_on_bad_json_witness :
    (request (constTransport 200 "not-json") demoSpider "lookups" "datasources" "GET"
        none noParams).2.2 =
      Except.error (PyError.chemspipy
        (ChemSpiPyException.parseError
          ("Unable to parse json response: " ++ "Expecting value: line 1 column 1 (char 0)"))) :=
  c7_parse_error_on_bad_json (constTransport 200 "not-json") demoSpider
    "lookups" "datasources" ⟨200, "not-json"⟩ "Expecting value: line 1 column 1 (char 0)"
    rfl rfl rfl

/-- Claim C8, counterexample: with the order `"csid"` given but the
direction argument None (falsy), the Facade's search constructs the session
with the plain submission variant — whose POST body contains only the query
name — contradicting "when an order is given it submits via the
ordered-submission variant". -/
theorem c8_order_without_direction_plain :
    CustomApi.search "benzene" (some "csid") none false =
      ⟨Submission.plain "benzene", false⟩ := rfl

/-- Claim C8, amended: search returns a new Search Session; the ordered
variant is chosen exactly when both order and direction are truthy
(non-empty) — in particular whenever an order is given together with the
default direction "ascending" — and its submission POSTs a body with the
query name, orderBy and orderDirection; with no order, or with an order but
a falsy direction (None or the empty string), the plain variant is chosen
and its submission POSTs a body with only the query name. -/
theorem c8_amended_variant_selection (q o d : String) (re : Bool)
    (dir : Option String) (T : Transport) (s : Spider)
    (ho : o.isEmpty = false) (hd : d.isEmpty = false) :
    CustomApi.search q (some o) (some d) re = ⟨Submission.ordered q o d, re⟩
    ∧ CustomApi.search q none dir re = ⟨Submission.plain q, re⟩
    ∧ CustomApi.search q (some o) none re = ⟨Submission.plain q, re⟩
    ∧ CustomApi.search q (some o) (some "") re = ⟨Submission.plain q, re⟩
    ∧ (async_simple_search_ordered T s q o d).2.1 =
        [⟨"POST", fmt3 s.api_url "filter" "name",
          some (submissionPayload (Submission.ordered q o d))⟩]
    ∧ (async_simple_search T s q).2.1 =
        [⟨"POST", fmt3 s.api_url "filter" "name",
          some (submissionPayload (Submission.plain q))⟩] := by
  refine ⟨?_, ?_, ?_, ?_, ?_, ?_⟩
  · simp [CustomApi.search, ho, hd]
  · cases dir <;> rfl
  · rfl
  · have he : "".isEmpty = true := rfl
    simp [CustomApi.search, he]
  · exact (request_post_trace T s "filter" "name"
      (submissionPayload (Submission.ordered q o d))).2
  · exact (request_post_trace T s "filter" "name"
      (submissionPayload (Submission.plain q))).2

/-- Claim C8 amended, witness: the query `"benzene"` ordered by `"csid"`
ascending, the same query unordered, and the same query with the order given
but a falsy (None or empty) direction. -/
theorem c8_amended_variant_selection_witness :
    CustomApi.search "benzene" (some "csid") (some "ascending") true =
      ⟨Submission.ordered "benzene" "csid" "ascending", true⟩
    ∧ CustomApi.search "benzene" none none true = ⟨Submission.plain "benzene", true⟩
    ∧ CustomApi.search "benzene" (some "csid") none true = ⟨Submission.plain "benzene", true⟩
    ∧ CustomApi.search "benzene" (some "csid") (some "") true =
        ⟨Submission.plain "benzene", true⟩
    ∧ (async_simple_search_ordered (echoTransport "rid-1") demoSpider
          "benzene" "csid" "ascending").2.1 =
        [⟨"POST", fmt3 demoSpider.api_url "filter" "name",
          some (submissionPayload (Submission.ordered "benzene" "csid" "ascending"))⟩]
    ∧ (async_simple_search (echoTransport "rid-1") demoSpider "benzene").2.1 =
        [⟨"POST", fmt3 demoSpider.api_url "filter" "name",
          some (submissionPayload (Submission.plain "benzene"))⟩] :=
  c8_amended_variant_selection "benzene" "csid" "ascending" true none
    (echoTransport "rid-1") demoSpider rfl rfl

/-- Claim C9 (confirmed): with a non-empty datasources list, both
`simple_search_by_formula` and `simple_search_by_mass` fail with a NameError
on the unassigned name `data` before any remote call is made; with
datasources omitted, each submits exactly one POST whose payload contains
only the formula (respectively only the mass and the range). -/
theorem c9_datasources_name_error (T : Transport) (s : Spider)
    (formula : String) (mass mass_range : Rat) (ds : List String)
    (hds : ds.isEmpty = false) :
    simple_search_by_formula T s formula (some ds) =
      (s, [], Except.error (PyError.nameError "data"))
    ∧ simple_search_by_mass T s mass mass_range (some ds) =
      (s, [], Except.error (PyError.nameError "data"))
    ∧ (simple_search_by_formula T s formula none).2.1 =
        [⟨"POST", fmt3 s.api_url "filter" "formula",
          some (Json.obj [("formula", Json.str formula)])⟩]
    ∧ (simple_search_by_mass T s mass mass_range none).2.1 =
        [⟨"POST", fmt3 s.api_url "filter" "mass",
          some (Json.obj [("mass", Json.num mass), ("range", Json.num mass_range)])⟩] := by
  refine ⟨?_, ?_, ?_, ?_⟩
  · simp [simple_search_by_formula, dsTruthy, hds]
  · simp [simple_search_by_mass, dsTruthy, hds]
  · simp only [simple_search_by_formula, dsTruthy]
    exact (request_post_trace T s "filter" "formula"
      (Json.obj [("formula", Json.str formula)])).2
  · simp only [simple_search_by_mass, dsTruthy]
    exact (request_post_trace T s "filter" "mass"
      (Json.obj [("mass", Json.num mass), ("range", Json.num mass_range)])).2

/-- Claim C9, witness: formula `"C6H6"`, mass 78 with range 1, and the
non-empty datasources list `["PubChem"]`. -/
theorem c9_datasources_name_error_witness :
    simple_search_by_formula (echoTransport "ok") demoSpider "C6H6" (some ["PubChem"]) =
      (demoSpider, [], Except.error (PyError.nameError "data"))
    ∧ simple_search_by_mass (echoTransport "ok") demoSpider 78 1 (some ["PubChem"]) =
      (demoSpider, [], Except.error (PyError.nameError "data"))
    ∧ (simple_search_by_formula (echoTransport "ok") demoSpider "C6H6" none).2.1 =
        [⟨"POST", fmt3 demoSpider.api_url "filter" "formula",
          some (Json.obj [("formula", Json.str "C6H6")])⟩]
    ∧ (simple_search_by_mass (echoTransport "ok") demoSpider 78 1 none).2.1 =
        [⟨"POST", fmt3 demoSpider.api_url "filter" "mass",
          some (Json.obj [("mass", Json.num 78), ("range", Json.num 1)])⟩] :=
  c9_datasources_name_error (echoTransport "ok") demoSpider "C6H6" 78 1 ["PubChem"] rfl

end ChemSpiPy
